import Mathlib

/-!
Verification development for the PeakMix (`c2ccombos`) repository.

The Python modules `geo.py`, `utils.py`, `params.py` and `search.py` are
shallowly embedded below.  Python floats are modelled as exact numbers
(`ℚ` for values that flow through JSON documents and query parameters,
`ℝ` for the transcendental projection math and for distances computed
with `math.hypot`).  Python values coming from JSON documents are
modelled by the inductive type `GVal`; a Python string is abstracted by
its text together with the two observations the code makes of it
(`json.loads` and `float`), which are carried on the constructor so that
recursion through `json.loads` stays structural.  Fallible Python code
(code that may raise) is modelled in the `Except PyErr` monad; a
`.error` value corresponds to an uncaught Python exception.
-/

deriving instance DecidableEq for Except

/-- The kinds of Python exception the embedded fragments can raise. -/
inductive PyErr where
  | typeError
  | valueError
  | indexError
  | keyError
  | attributeError
deriving DecidableEq

/-- A Python value as found in a decoded JSON document.

A string carries its `text`, the result `jsonParse` that `json.loads`
would give on it (`none` when `json.loads` raises), and the result
`floatParse` that `float()` would give on it (`none` when `float()`
raises).  Carrying the parse result on the constructor keeps the
recursion of `first_point_xy_from_geometry` structural. -/
inductive GVal where
  | null : GVal
  | bool (b : Bool) : GVal
  | num (q : ℚ) : GVal
  | str (text : String) (jsonParse : Option GVal) (floatParse : Option ℚ) : GVal
  | arr (elems : List GVal) : GVal
  | obj (fields : List (String × GVal)) : GVal

/-- Python dictionary lookup (`d.get(k)`): first binding of the key wins
(Python dicts have unique keys). -/
def lookupG (fs : List (String × GVal)) (k : String) : Option GVal :=
  match fs with
  | [] => none
  | (k', v) :: rest => if k' = k then some v else lookupG rest k

/-- Python truthiness (`bool(v)`) for the modelled values. -/
def truthy : GVal → Bool
  | .null => false
  | .bool b => b
  | .num q => q != 0
  | .str t _ _ => t != ""
  | .arr xs => !xs.isEmpty
  | .obj fs => !fs.isEmpty

/-- `isinstance(v, (int, float))` (Python booleans are instances of `int`). -/
def isNumLike : GVal → Bool
  | .num _ => true
  | .bool _ => true
  | _ => false

/-- `float(v)`: succeeds on numbers and booleans, on strings according to
the string's recorded `float()` observation, raises `TypeError` or
`ValueError` otherwise. -/
def pyFloat : GVal → Except PyErr ℚ
  | .num q => .ok q
  | .bool b => .ok (if b then 1 else 0)
  | .str _ _ fp =>
      match fp with
      | some q => .ok q
      | none => .error .valueError
  | _ => .error .typeError

/-- `float()` applied to a one-character string (used when indexing into
a string): a single digit parses, anything else raises. -/
def charFloat (c : Char) : Option ℚ :=
  if c.isDigit then some ((c.toNat - 48 : ℕ) : ℚ) else none

/-- Python subscript `v[i]` for a non-negative integer index.
Lists index positionally (`IndexError` when out of range), strings yield
a one-character string, JSON objects have string keys so an integer
subscript raises `KeyError`, and other values raise `TypeError`. -/
def pyIndex : GVal → ℕ → Except PyErr GVal
  | .arr xs, i =>
      match xs.get? i with
      | some v => .ok v
      | none => .error .indexError
  | .str t _ _, i =>
      match t.data.get? i with
      | some c => .ok (.str (String.mk [c]) none (charFloat c))
      | none => .error .indexError
  | .obj _, _ => .error .keyError
  | _, _ => .error .typeError

/-- Substring test `"geom" in s` for a Python string `s`. -/
def hasGeomSubstring (t : String) : Bool :=
  (t.splitOn "geom").length != 1

/-- Membership test used by `"geom" in lst` on a Python list: an element
equal to the string `"geom"`. -/
def isGeomString : GVal → Bool
  | .str t _ _ => t == "geom"
  | _ => false

/-- `gtype == "Point"` where `gtype` is `geometry.get("type")`. -/
def isPointStr : Option GVal → Bool
  | some (.str t _ _) => t == "Point"
  | _ => false

/-- The inner helper `drill` of `first_point_xy_from_geometry` (geo.py):
descend into the first element of nested coordinate arrays until a
leading numeric pair is found.

```python
def drill(c):
    if not isinstance(c, (list, tuple)) or not c:
        return None
    if isinstance(c[0], (int, float)) and len(c) >= 2:
        return float(c[0]), float(c[1])
    return drill(c[0])
```
-/
def drill : GVal → Except PyErr (Option (ℚ × ℚ))
  | .arr (x :: y :: _) =>
      if isNumLike x then do
        let a ← pyFloat x
        let b ← pyFloat y
        return some (a, b)
      else drill x
  | .arr [x] => drill x
  | _ => .ok none

/-- `geometry.get("type")` / `geometry.get("coordinates")` part of
`first_point_xy_from_geometry`, reached when the `geom`-string wrapper
branch was not taken.  The enclosing `try` only catches
`AttributeError`, which cannot occur on a mapping.

```python
gtype = geometry.get("type")
coords = geometry.get("coordinates")
if not coords:
    return None
if gtype == "Point":
    x, y = coords[0], coords[1]
    return float(x), float(y)
return drill(coords)
```
-/
def objGeometryBody (fs : List (String × GVal)) : Except PyErr (Option (ℚ × ℚ)) :=
  let gtype := lookupG fs "type"
  match lookupG fs "coordinates" with
  | none => .ok none
  | some c =>
    if !truthy c then .ok none
    else if isPointStr gtype then do
      let x ← pyIndex c 0
      let y ← pyIndex c 1
      let a ← pyFloat x
      let b ← pyFloat y
      return some (a, b)
    else drill c

mutual

/-- `first_point_xy_from_geometry` (geo.py).

The outer `try` catches only `AttributeError` (raised by `.get` on a
non-mapping); the membership test `"geom" in geometry` itself raises
`TypeError` on numbers, booleans and `None`, and `geometry["geom"]`
raises `TypeError` on lists and strings — but on a mapping the
subscript cannot fail after a successful membership test.  The inner
`try` around `json.loads` and the recursive call catches every
exception and degrades to `None`.  The mapping case walks the fields
for the `"geom"` key (`firstPointGeomWalk`) so that the recursion into
the parsed wrapper payload is structural; `first_point_obj` below
restates it through `lookupG`. -/
def first_point_xy_from_geometry : GVal → Except PyErr (Option (ℚ × ℚ))
  | .null => .error .typeError
  | .bool _ => .error .typeError
  | .num _ => .error .typeError
  | .str t _ _ =>
      if hasGeomSubstring t then .error .typeError else .ok none
  | .arr xs =>
      if xs.any isGeomString then .error .typeError else .ok none
  | .obj fs => firstPointGeomWalk fs fs

/-- Walk of the mapping's fields looking for the first `"geom"` binding
(the one `geometry["geom"]` returns); the second argument carries the
whole mapping for the fall-through to `objGeometryBody`. -/
def firstPointGeomWalk :
    List (String × GVal) → List (String × GVal) → Except PyErr (Option (ℚ × ℚ))
  | [], fs => objGeometryBody fs
  | (k, v) :: rest, fs =>
    if k = "geom" then
      match v with
      | .str _ (some parsed) _ =>
          (match first_point_xy_from_geometry parsed with
           | .ok r => .ok r
           | .error _ => .ok none)
      | .str _ none _ => .ok none
      | _ => objGeometryBody fs
    else firstPointGeomWalk rest fs

end

theorem firstPointGeomWalk_eq (gs fs : List (String × GVal)) :
    firstPointGeomWalk gs fs =
      match lookupG gs "geom" with
      | some (.str _ (some parsed) _) =>
          (match first_point_xy_from_geometry parsed with
           | .ok r => .ok r
           | .error _ => .ok none)
      | some (.str _ none _) => .ok none
      | _ => objGeometryBody fs := by
  induction gs with
  | nil => simp [firstPointGeomWalk.eq_def, lookupG]
  | cons p rest ih =>
    obtain ⟨k, v⟩ := p
    by_cases hk : k = "geom"
    · subst hk
      rw [firstPointGeomWalk.eq_def]
      simp only [lookupG, if_pos rfl]
      cases v with
      | str t jp fp => cases jp <;> simp
      | null => simp
      | bool b => simp
      | num q => simp
      | arr xs => simp
      | obj gs2 => simp
    · rw [firstPointGeomWalk.eq_def]
      simp only [lookupG, if_neg hk]
      exact ih

/-- Unfolding equation for `first_point_xy_from_geometry` on a mapping,
phrased through `lookupG`. -/
theorem first_point_obj (fs : List (String × GVal)) :
    first_point_xy_from_geometry (.obj fs) =
      match lookupG fs "geom" with
      | some (.str _ (some parsed) _) =>
          (match first_point_xy_from_geometry parsed with
           | .ok r => .ok r
           | .error _ => .ok none)
      | some (.str _ none _) => .ok none
      | _ => objGeometryBody fs :=
  firstPointGeomWalk_eq fs fs

/-- The geometry attempt of `doc_point_xy` (geo.py): `if geom`
(truthiness) guards the extractor call. -/
def docGeomPoint (doc : GVal) : Except PyErr (Option (ℚ × ℚ)) :=
  match (match doc with | .obj fs => lookupG fs "geometry" | _ => none) with
  | some g => if truthy g then first_point_xy_from_geometry g else .ok none
  | none => .ok none

/-- The bbox-centre fallback of `doc_point_xy` (geo.py); the float
conversions follow the evaluation order `minx, maxx, miny, maxy` of the
two averaged sums. -/
def docBboxCenter (doc : GVal) : Except PyErr (Option (ℚ × ℚ)) :=
  match (match doc with | .obj fs => lookupG fs "bbox" | _ => none) with
  | some (.arr [a, b, c, d]) => do
      let x1 ← pyFloat a
      let x2 ← pyFloat c
      let y1 ← pyFloat b
      let y2 ← pyFloat d
      return some ((x1 + x2) / 2, (y1 + y2) / 2)
  | _ => .ok none

/-- `doc_point_xy` (geo.py): geometry point first, then centre of a
4-element `bbox`. -/
def doc_point_xy (doc : GVal) : Except PyErr (Option (ℚ × ℚ)) :=
  match docGeomPoint doc with
  | .error e => .error e
  | .ok (some p) => .ok (some p)
  | .ok none => docBboxCenter doc

/-- Short-hand for a plain JSON string (no successful `json.loads` or
`float` observation). -/
def gstr (t : String) : GVal := .str t none none

-- Sanity checks against the repository's own tests (test_geo.py,
-- test_geo_c2c_geom.py).
example :
    first_point_xy_from_geometry
      (.obj [("type", gstr "Point"), ("coordinates", .arr [.num 1, .num 2])]) =
      .ok (some (1, 2)) := by decide
example :
    first_point_xy_from_geometry
      (.obj [("type", gstr "Polygon"),
             ("coordinates",
              .arr [.arr [.arr [.num 1, .num 2], .arr [.num 3, .num 4],
                          .arr [.num 1, .num 2]]])]) =
      .ok (some (1, 2)) := by decide
example :
    doc_point_xy
      (.obj [("geometry",
              .obj [("type", gstr "LineString"),
                    ("coordinates", .arr [.arr [.num 5, .num 6], .arr [.num 7, .num 8]])])]) =
      .ok (some (5, 6)) := by decide
example :
    doc_point_xy (.obj [("bbox", .arr [.num 0, .num 0, .num 10, .num 10])]) =
      .ok (some (5, 5)) := by
  have h : doc_point_xy (.obj [("bbox", .arr [.num 0, .num 0, .num 10, .num 10])]) =
      .ok (some (((0 : ℚ) + 10) / 2, ((0 : ℚ) + 10) / 2)) := rfl
  rw [h]
  norm_num
example :
    doc_point_xy
      (.obj [("geometry",
              .obj [("version", .num 1),
                    ("geom",
                     .str "x"
                       (some (.obj [("type", gstr "Point"),
                                    ("coordinates", .arr [.num 703332, .num 5645975])]))
                       none)])]) =
      .ok (some (703332, 5645975)) := by decide

/-! ### Geometry extractor claims -/

/-- The inner `except Exception: return None` of the `geom`-wrapper
branch: an exception from the recursive call degrades to `None`. -/
def errSwallow (r : Except PyErr (Option (ℚ × ℚ))) : Except PyErr (Option (ℚ × ℚ)) :=
  match r with
  | .ok r => .ok r
  | .error _ => .ok none

theorem errSwallow_idem (r : Except PyErr (Option (ℚ × ℚ))) :
    errSwallow (errSwallow r) = errSwallow r := by
  cases r <;> rfl

theorem errSwallow_isOk (r : Except PyErr (Option (ℚ × ℚ))) :
    ∃ v, errSwallow r = .ok v := by
  cases r with
  | ok v => exact ⟨v, rfl⟩
  | error e => exact ⟨none, rfl⟩

/-- One unwrapping step of the string-encoded `geom` wrapper. -/
theorem wrapper_step {fs : List (String × GVal)} {t : String} {parsed : GVal}
    {fp : Option ℚ} (h : lookupG fs "geom" = some (.str t (some parsed) fp)) :
    first_point_xy_from_geometry (.obj fs) =
      errSwallow (first_point_xy_from_geometry parsed) := by
  rw [first_point_obj, h]
  rfl

/-- A `geom` string that `json.loads` rejects degrades to no point. -/
theorem wrapper_parse_fail {fs : List (String × GVal)} {t : String} {fp : Option ℚ}
    (h : lookupG fs "geom" = some (.str t none fp)) :
    first_point_xy_from_geometry (.obj fs) = .ok none := by
  rw [first_point_obj, h]

/-- When no string-valued `geom` binding exists, the extractor proceeds
to the `type`/`coordinates` body. -/
theorem no_wrapper_step {fs : List (String × GVal)} (h : lookupG fs "geom" = none) :
    first_point_xy_from_geometry (.obj fs) = objGeometryBody fs := by
  rw [first_point_obj, h]

/-- An `n`-fold nesting of the C2C wrapper shape
`{"geom": "<json text encoding the next level>"}` around a geometry. -/
def geomWrap : ℕ → GVal → GVal
  | 0, g => g
  | n + 1, g => .obj [("geom", .str "{nested}" (some (geomWrap n g)) none)]

/-- **C10** — string-encoded geometry wrappers unwrap to any depth: one
wrapper layer always recurses into the parsed payload (with exceptions
swallowed), hence `n + 1` layers reduce to the innermost geometry, and a
string that fails to parse as JSON at any nesting level yields no
point. -/
theorem geom_wrapper_unwraps_any_depth :
    (∀ (fs : List (String × GVal)) (t : String) (parsed : GVal) (fp : Option ℚ),
        lookupG fs "geom" = some (.str t (some parsed) fp) →
        first_point_xy_from_geometry (.obj fs) =
          errSwallow (first_point_xy_from_geometry parsed))
    ∧ (∀ (n : ℕ) (g : GVal),
        first_point_xy_from_geometry (geomWrap (n + 1) g) =
          errSwallow (first_point_xy_from_geometry g))
    ∧ (∀ (n : ℕ) (t : String) (fp : Option ℚ),
        first_point_xy_from_geometry (geomWrap n (.obj [("geom", .str t none fp)])) =
          .ok none) := by
  have step : ∀ (n : ℕ) (g : GVal),
      first_point_xy_from_geometry (geomWrap (n + 1) g) =
        errSwallow (first_point_xy_from_geometry g) := by
    intro n
    induction n with
    | zero =>
      intro g
      exact @wrapper_step [("geom", .str "{nested}" (some (geomWrap 0 g)) none)]
        "{nested}" (geomWrap 0 g) none rfl
    | succ n ih =>
      intro g
      have h1 := @wrapper_step [("geom", .str "{nested}" (some (geomWrap (n + 1) g)) none)]
        "{nested}" (geomWrap (n + 1) g) none rfl
      rw [show geomWrap (n + 2) g =
            .obj [("geom", .str "{nested}" (some (geomWrap (n + 1) g)) none)] from rfl,
          h1, ih g, errSwallow_idem]
  refine ⟨fun fs t parsed fp h => wrapper_step h, step, ?_⟩
  intro n t fp
  cases n with
  | zero =>
    exact @wrapper_parse_fail [("geom", .str t none fp)] t fp rfl
  | succ n =>
    rw [step n (.obj [("geom", .str t none fp)]),
        @wrapper_parse_fail [("geom", .str t none fp)] t fp rfl]
    rfl

theorem geom_wrapper_unwraps_any_depth_witness :
    first_point_xy_from_geometry (.obj [("geom", .str "w" (some GVal.null) none)]) =
        errSwallow (first_point_xy_from_geometry GVal.null)
    ∧ first_point_xy_from_geometry (geomWrap 2 (.obj [("geom", .str "bad" none none)])) =
        .ok none :=
  ⟨geom_wrapper_unwraps_any_depth.1 _ "w" GVal.null none rfl,
   geom_wrapper_unwraps_any_depth.2.2 2 "bad" none⟩

/-- A `Point` geometry whose coordinates array has fewer than two
elements. -/
def pointShortGeom : GVal :=
  .obj [("type", gstr "Point"), ("coordinates", .arr [.num 1])]

/-- A `Point` geometry with a coordinate entry `float()` rejects. -/
def pointBadEntryGeom : GVal :=
  .obj [("type", gstr "Point"), ("coordinates", .arr [.null, .num 2])]

/-- **C4 counterexample** — the extractor is not total: a directly
supplied `Point` whose coordinates array has fewer than two elements
raises `IndexError` (uncaught: the outer `try` catches only
`AttributeError`), and `doc_point_xy` propagates it, contradicting
"return no point rather than raising". -/
theorem extractor_raises_counterexample :
    first_point_xy_from_geometry pointShortGeom = .error .indexError
    ∧ doc_point_xy (.obj [("geometry", pointShortGeom)]) = .error .indexError
    ∧ (Except.error PyErr.indexError : Except PyErr (Option (ℚ × ℚ))) ≠ .ok none := by
  refine ⟨by decide, by decide, by decide⟩

/-- **C4 (amended)** — the degradation cases the spec lists hold:
malformed JSON in a string-encoded `geom` wrapper, any payload reached
through a `geom` wrapper (the inner handler swallows every exception),
a missing `coordinates` field, and an empty coordinate array all give
no point; but the extractor is not total — a directly supplied `Point`
whose coordinates array has fewer than two elements raises
`IndexError`, and a `Point` coordinate entry `float()` rejects raises
`TypeError`, in both cases propagated by `doc_point_xy`. -/
theorem extractor_degradation_cases :
    (∀ (fs : List (String × GVal)) (t : String) (fp : Option ℚ),
        lookupG fs "geom" = some (.str t none fp) →
        first_point_xy_from_geometry (.obj fs) = .ok none)
    ∧ (∀ (fs : List (String × GVal)) (t : String) (parsed : GVal) (fp : Option ℚ),
        lookupG fs "geom" = some (.str t (some parsed) fp) →
        ∃ r, first_point_xy_from_geometry (.obj fs) = .ok r)
    ∧ (∀ fs : List (String × GVal),
        lookupG fs "geom" = none → lookupG fs "coordinates" = none →
        first_point_xy_from_geometry (.obj fs) = .ok none)
    ∧ (∀ fs : List (String × GVal),
        lookupG fs "geom" = none → lookupG fs "coordinates" = some (.arr []) →
        first_point_xy_from_geometry (.obj fs) = .ok none)
    ∧ first_point_xy_from_geometry pointShortGeom = .error .indexError
    ∧ doc_point_xy (.obj [("geometry", pointShortGeom)]) = .error .indexError
    ∧ first_point_xy_from_geometry pointBadEntryGeom = .error .typeError := by
  refine ⟨?_, ?_, ?_, ?_, by decide, by decide, by decide⟩
  · intro fs t fp h
    exact wrapper_parse_fail h
  · intro fs t parsed fp h
    rw [wrapper_step h]
    exact errSwallow_isOk _
  · intro fs hg hc
    rw [no_wrapper_step hg]
    simp [objGeometryBody, hc]
  · intro fs hg hc
    rw [no_wrapper_step hg]
    simp [objGeometryBody, hc, truthy]

theorem extractor_degradation_cases_witness :
    first_point_xy_from_geometry (.obj [("geom", gstr "not json")]) = .ok none
    ∧ (∃ r, first_point_xy_from_geometry
        (.obj [("geom", .str "5" (some (.num 5)) (some 5))]) = .ok r)
    ∧ first_point_xy_from_geometry (.obj [("a", .num 1)]) = .ok none
    ∧ first_point_xy_from_geometry
        (.obj [("type", gstr "Point"), ("coordinates", .arr [])]) = .ok none :=
  ⟨extractor_degradation_cases.1 _ "not json" none rfl,
   extractor_degradation_cases.2.1 _ "5" (.num 5) (some 5) rfl,
   extractor_degradation_cases.2.2.1 _ rfl rfl,
   extractor_degradation_cases.2.2.2.1 _ rfl rfl⟩

/-- **C5 counterexample** — an unrecognized `type` discriminator with a
non-empty `coordinates` field does *not* give "no point": the code
never checks the discriminator except to special-case `"Point"`, so it
drills and returns the first numeric pair. -/
theorem unrecognized_type_counterexample :
    first_point_xy_from_geometry
        (.obj [("type", gstr "Garbage"), ("coordinates", .arr [.num 1, .num 2])]) =
      .ok (some (1, 2))
    ∧ (Except.ok (some ((1 : ℚ), (2 : ℚ))) : Except PyErr (Option (ℚ × ℚ))) ≠ .ok none := by
  refine ⟨by decide, by decide⟩

/-- **C5 (amended)** — the `type` discriminator is consulted only to
special-case `"Point"`: for any other value (a recognized non-`Point`
type, an unrecognized type, or a missing one) the extractor falls
through to structural drilling of the non-empty `coordinates`, so it
returns whatever leading numeric pair the drill finds and gives "no
point" exactly when the drill does. -/
theorem unrecognized_type_drills :
    ∀ (fs : List (String × GVal)) (c : GVal),
      lookupG fs "geom" = none →
      isPointStr (lookupG fs "type") = false →
      lookupG fs "coordinates" = some c →
      truthy c = true →
      first_point_xy_from_geometry (.obj fs) = drill c := by
  intro fs c hg ht hc htr
  rw [no_wrapper_step hg]
  simp [objGeometryBody, hc, htr, ht]

theorem unrecognized_type_drills_witness :
    first_point_xy_from_geometry
        (.obj [("type", gstr "Garbage2"),
               ("coordinates", .arr [.arr [.num 7, .num 8]])]) =
      drill (.arr [.arr [.num 7, .num 8]]) :=
  unrecognized_type_drills _ _ rfl rfl rfl rfl

/-! ### Document URL derivation (utils.py) -/

/-- `mapping.get(t)` for the short type-code table in `doc_entity`. -/
def entity_code_map (t : String) : Option String :=
  if t = "r" then some "routes"
  else if t = "w" then some "waypoints"
  else if t = "o" then some "outings"
  else if t = "a" then some "areas"
  else if t = "i" then some "images"
  else if t = "b" then some "books"
  else if t = "c" then some "articles"
  else if t = "x" then some "xreports"
  else if t = "u" then some "users"
  else none

/-- Python `k in d` on a dict. -/
def hasKey (fs : List (String × GVal)) (k : String) : Bool :=
  (lookupG fs k).isSome

/-- `doc_entity` (utils.py): the short `type` code when it is a string,
else field-presence heuristics. -/
def doc_entity (fs : List (String × GVal)) : Option String :=
  match lookupG fs "type" with
  | some (.str t _ _) => entity_code_map t
  | _ =>
    if hasKey fs "waypoint_type" then some "waypoints"
    else if hasKey fs "activities" then some "routes"
    else none

/-- `doc_id` (utils.py): `doc.get("document_id") or doc.get("id")` —
Python `or` falls through on a falsy (not merely missing) left side. -/
def doc_id (fs : List (String × GVal)) : Option GVal :=
  match lookupG fs "document_id" with
  | some v => if truthy v then some v else lookupG fs "id"
  | none => lookupG fs "id"

/-- Python `str()` of a modelled value, as interpolated by the f-string
in `doc_url`.  Rational renderings differ from CPython for non-integral
floats and nested containers, neither of which a document id ever is. -/
def pyStrG : GVal → String
  | .null => "None"
  | .bool b => if b then "True" else "False"
  | .num q => if q.den = 1 then toString q.num else toString q
  | .str t _ _ => t
  | .arr _ => "<list>"
  | .obj _ => "<dict>"

/-- `base.rstrip("/")`. -/
def rstripSlash (s : String) : String :=
  String.mk ((s.data.reverse.dropWhile (fun c => c = '/')).reverse)

/-- `doc_url` (utils.py): `None` when `not entity or not did`, else the
interpolated `{base}/{entity}/{id}` address. -/
def doc_url (fs : List (String × GVal)) (base : String := "https://www.camptocamp.org") :
    Option String :=
  match doc_entity fs, doc_id fs with
  | some e, some v =>
      if e = "" then none
      else if truthy v then some (rstripSlash base ++ "/" ++ e ++ "/" ++ pyStrG v)
      else none
  | some _, none => none
  | none, _ => none

theorem doc_entity_ne_empty (fs : List (String × GVal)) (e : String)
    (h : doc_entity fs = some e) : e ≠ "" := by
  simp only [doc_entity] at h
  split at h
  · unfold entity_code_map at h
    split_ifs at h <;> intro he <;> subst he <;> simp at h
  · split_ifs at h <;> intro he <;> subst he <;> simp at h

/-- **C9 counterexample** — a document whose id resolves to the falsy
value `0` gets no URL even though both entity and id resolve, refuting
"returns no URL exactly when either entity or id cannot be
resolved". -/
theorem doc_url_falsy_id_counterexample :
    doc_url [("type", gstr "r"), ("id", .num 0)] = none
    ∧ doc_entity [("type", gstr "r"), ("id", .num 0)] = some "routes"
    ∧ doc_id [("type", gstr "r"), ("id", .num 0)] = some (.num 0) :=
  ⟨rfl, rfl, rfl⟩

/-- **C9 (amended)** — `doc_url` returns `{base}/{entity}/{id}` with
entity from the short-code table (or, when `type` is absent, from the
`waypoint_type`/`activities` heuristics) and id from
`document_id`-then-`id`; it returns no URL exactly when entity is
unresolved, id is unresolved, or the resolved id is falsy (e.g. `0`). -/
theorem doc_url_spec :
    (entity_code_map "r" = some "routes" ∧ entity_code_map "w" = some "waypoints"
      ∧ entity_code_map "o" = some "outings" ∧ entity_code_map "a" = some "areas"
      ∧ entity_code_map "i" = some "images" ∧ entity_code_map "b" = some "books"
      ∧ entity_code_map "c" = some "articles" ∧ entity_code_map "x" = some "xreports"
      ∧ entity_code_map "u" = some "users")
    ∧ (∀ (fs : List (String × GVal)) (t : String) (jp : Option GVal) (fp : Option ℚ),
        lookupG fs "type" = some (.str t jp fp) → doc_entity fs = entity_code_map t)
    ∧ (∀ fs : List (String × GVal),
        lookupG fs "type" = none → hasKey fs "waypoint_type" = true →
        doc_entity fs = some "waypoints")
    ∧ (∀ fs : List (String × GVal),
        lookupG fs "type" = none → hasKey fs "waypoint_type" = false →
        hasKey fs "activities" = true → doc_entity fs = some "routes")
    ∧ (∀ (fs : List (String × GVal)) (base e : String) (v : GVal),
        doc_entity fs = some e → doc_id fs = some v → truthy v = true →
        doc_url fs base = some (rstripSlash base ++ "/" ++ e ++ "/" ++ pyStrG v))
    ∧ (∀ (fs : List (String × GVal)) (base : String),
        doc_url fs base = none ↔
          doc_entity fs = none ∨ doc_id fs = none
            ∨ ∃ v, doc_id fs = some v ∧ truthy v = false) := by
  refine ⟨by decide, ?_, ?_, ?_, ?_, ?_⟩
  · intro fs t jp fp h
    simp [doc_entity, h]
  · intro fs h hw
    simp [doc_entity, h, hw]
  · intro fs h hw ha
    simp [doc_entity, h, hw, ha]
  · intro fs base e v he hd htr
    have hne := doc_entity_ne_empty fs e he
    simp [doc_url, he, hd, hne, htr]
  · intro fs base
    rcases he : doc_entity fs with _ | e
    · simp [doc_url, he]
    · have hne := doc_entity_ne_empty fs e he
      rcases hd : doc_id fs with _ | v
      · simp [doc_url, he, hd]
      · by_cases htr : truthy v = true
        · simp [doc_url, he, hd, hne, htr]
        · simp only [Bool.not_eq_true] at htr
          simp [doc_url, he, hd, hne, htr]

theorem doc_url_spec_witness :
    doc_entity [("type", gstr "w"), ("document_id", .num 456)] = entity_code_map "w"
    ∧ doc_entity [("document_id", .num 789), ("activities", .arr [gstr "hiking"])] =
        some "routes"
    ∧ doc_url [("type", gstr "w"), ("document_id", .num 456)] "https://www.camptocamp.org" =
        some (rstripSlash "https://www.camptocamp.org" ++ "/" ++ "waypoints" ++ "/"
          ++ pyStrG (.num 456))
    ∧ (doc_url [("q", .num 1)] "b" = none ↔
        doc_entity [("q", .num 1)] = none ∨ doc_id [("q", .num 1)] = none
          ∨ ∃ v, doc_id [("q", .num 1)] = some v ∧ truthy v = false) :=
  ⟨doc_url_spec.2.1 _ "w" none none rfl,
   doc_url_spec.2.2.2.1 _ rfl rfl rfl,
   doc_url_spec.2.2.2.2.1 _ _ "waypoints" (.num 456) rfl rfl rfl,
   doc_url_spec.2.2.2.2.2 _ _⟩

-- The repository's own URL tests (test_utils.py).
example : doc_url [("type", gstr "r"), ("document_id", .num 123)] =
    some "https://www.camptocamp.org/routes/123" := rfl
example : doc_url [("document_id", .num 789), ("activities", .arr [gstr "x"])] =
    some "https://www.camptocamp.org/routes/789" := rfl
example : doc_url [("document_id", .num 999), ("waypoint_type", gstr "paragliding_takeoff")] =
    some "https://www.camptocamp.org/waypoints/999" := rfl

/-! ### Paginated fetcher (search.py, `C2CSearch._paginate`)

The remote endpoint is abstracted by the sequence of `documents` arrays
its successive requests return (the claim's "sequence of server
pages"); once the sequence is exhausted the server is taken to answer
with an empty page.  The `offset` bookkeeping of the Python loop only
feeds the server and is dropped from the model.

```python
items = []; offset = ...; seen = 0
while True:
    docs = list(res.get("documents", []) or [])
    if not docs: break
    for d in docs:
        items.append(d); seen += 1
        if max_items is not None and seen >= max_items:
            return items
    offset += len(docs)
    if len(docs) < page_size: break
return items
```
-/

/-- The inner `for d in docs` loop of `_paginate`: append one document
at a time; the `Bool` result records the early `return items`. -/
def paginateConsume (docs : List GVal) (items : List GVal) (seen : ℕ)
    (max_items : Option ℕ) : List GVal × ℕ × Bool :=
  match docs with
  | [] => (items, seen, false)
  | d :: ds =>
    let items' := items ++ [d]
    let seen' := seen + 1
    match max_items with
    | some m =>
        if m ≤ seen' then (items', seen', true)
        else paginateConsume ds items' seen' (some m)
    | none => paginateConsume ds items' seen' none

/-- The `while True` loop of `_paginate`. -/
def paginateLoop (pages : List (List GVal)) (page_size : ℕ) (max_items : Option ℕ)
    (items : List GVal) (seen : ℕ) : List GVal :=
  match pages with
  | [] => items
  | docs :: rest =>
    if docs.isEmpty then items
    else
      match paginateConsume docs items seen max_items with
      | (items', _, true) => items'
      | (items', seen', false) =>
        if docs.length < page_size then items'
        else paginateLoop rest page_size max_items items' seen'

/-- `C2CSearch._paginate` over a mocked page sequence. -/
def paginate (pages : List (List GVal)) (page_size : ℕ) (max_items : Option ℕ) :
    List GVal :=
  paginateLoop pages page_size max_items [] 0

theorem paginateConsume_none (docs : List GVal) :
    ∀ (items : List GVal) (seen : ℕ),
      paginateConsume docs items seen none = (items ++ docs, seen + docs.length, false) := by
  induction docs with
  | nil => intro items seen; simp [paginateConsume]
  | cons d ds ih =>
    intro items seen
    simp only [paginateConsume, ih]
    refine Prod.ext ?_ (Prod.ext ?_ rfl) <;> simp
    omega

theorem paginateConsume_reached (docs : List GVal) :
    ∀ (items : List GVal) (seen m : ℕ), seen < m → m ≤ seen + docs.length →
      paginateConsume docs items seen (some m) =
        (items ++ docs.take (m - seen), m, true) := by
  induction docs with
  | nil =>
    intro items seen m h1 h2
    simp at h2
    omega
  | cons d ds ih =>
    intro items seen m h1 h2
    simp only [paginateConsume]
    by_cases hm : m ≤ seen + 1
    · have hme : m = seen + 1 := by omega
      subst hme
      rw [if_pos hm]
      have ht : (d :: ds).take (seen + 1 - seen) = [d] := by
        have : seen + 1 - seen = 1 := by omega
        rw [this]
        rfl
      rw [ht]
    · rw [if_neg hm]
      rw [ih (items ++ [d]) (seen + 1) m (by omega) (by simp at h2 ⊢; omega)]
      have ht : (d :: ds).take (m - seen) = d :: ds.take (m - (seen + 1)) := by
        have h3 : m - seen = (m - (seen + 1)) + 1 := by omega
        rw [h3]
        rfl
      rw [ht]
      simp

theorem paginateConsume_not_reached (docs : List GVal) :
    ∀ (items : List GVal) (seen m : ℕ), seen + docs.length < m →
      paginateConsume docs items seen (some m) =
        (items ++ docs, seen + docs.length, false) := by
  induction docs with
  | nil => intro items seen m _; simp [paginateConsume]
  | cons d ds ih =>
    intro items seen m h
    simp only [paginateConsume]
    rw [if_neg (by simp at h; omega)]
    rw [ih (items ++ [d]) (seen + 1) m (by simp at h ⊢; omega)]
    refine Prod.ext ?_ (Prod.ext ?_ rfl) <;> simp
    omega

theorem paginateLoop_prefix (pages : List (List GVal)) :
    ∀ (ps : ℕ) (items : List GVal) (seen : ℕ),
      ∃ tail, paginateLoop pages ps none items seen = items ++ tail := by
  induction pages with
  | nil => intro ps items seen; exact ⟨[], by simp [paginateLoop]⟩
  | cons docs rest ih =>
    intro ps items seen
    by_cases hemp : docs.isEmpty
    · exact ⟨[], by simp [paginateLoop, hemp]⟩
    · by_cases hshort : docs.length < ps
      · refine ⟨docs, ?_⟩
        simp [paginateLoop, hemp, paginateConsume_none, hshort]
      · obtain ⟨tail, ht⟩ := ih ps (items ++ docs) (seen + docs.length)
        refine ⟨docs ++ tail, ?_⟩
        simp [paginateLoop, hemp, paginateConsume_none, hshort, ht]

theorem paginateLoop_take (pages : List (List GVal)) :
    ∀ (ps m : ℕ) (items : List GVal) (seen : ℕ), items.length = seen → seen < m →
      paginateLoop pages ps (some m) items seen =
        (paginateLoop pages ps none items seen).take m := by
  induction pages with
  | nil =>
    intro ps m items seen hlen hm
    simp only [paginateLoop]
    rw [List.take_of_length_le (by omega)]
  | cons docs rest ih =>
    intro ps m items seen hlen hm
    by_cases hemp : docs.isEmpty
    · simp only [paginateLoop, hemp, if_pos]
      rw [List.take_of_length_le (by omega)]
    · by_cases hreach : m ≤ seen + docs.length
      · simp only [paginateLoop, hemp, Bool.false_eq_true, if_false,
          paginateConsume_reached docs items seen m hm hreach,
          paginateConsume_none docs items seen]
        by_cases hshort : docs.length < ps
        · simp only [if_pos hshort]
          rw [List.take_append_eq_append_take,
              show List.take m items = items from List.take_of_length_le (by omega), hlen]
        · simp only [if_neg hshort]
          obtain ⟨tail, ht⟩ := paginateLoop_prefix rest ps (items ++ docs) (seen + docs.length)
          rw [ht, List.take_append_eq_append_take, List.take_append_eq_append_take,
              show List.take m items = items from List.take_of_length_le (by omega), hlen]
          have h0 : m - (items ++ docs).length = 0 := by simp; omega
          rw [h0]
          simp
      · push_neg at hreach
        simp only [paginateLoop, hemp, Bool.false_eq_true, if_false,
          paginateConsume_not_reached docs items seen m hreach,
          paginateConsume_none docs items seen]
        by_cases hshort : docs.length < ps
        · simp only [if_pos hshort]
          rw [List.take_of_length_le (by simp; omega)]
        · simp only [if_neg hshort]
          exact ih ps m (items ++ docs) (seen + docs.length) (by simp [hlen]) (by omega)

/-- The mocked endpoint of the spec's pagination test: pages of sizes
200, 200 and 150. -/
def pagesMock : List (List GVal) :=
  [List.replicate 200 GVal.null, List.replicate 200 GVal.null,
   List.replicate 150 GVal.null]

/-- **C2 counterexample** — with `max_items = 0` the running total
reaches `max_items` only after the first document has been appended, so
one document is returned instead of exactly `max_items = 0`. -/
theorem paginate_max_items_zero_counterexample :
    (paginate [[GVal.null]] 5 (some 0)).length = 1 ∧ (1 : ℕ) ≠ 0 :=
  ⟨rfl, by decide⟩

set_option maxRecDepth 8000 in
/-- **C2 (amended)** — `_paginate` checks its termination conditions in
the claimed priority: an empty page stops the fetch at once; for a
*positive* `max_items` the result is exactly the unbounded result
truncated to `max_items` documents (the check fires mid-page, truncating
the last page's contribution); a page shorter than `page_size` is final.
With pages of sizes [200, 200, 150] and `page_size = 200` exactly 550
documents are returned, and `max_items = 300` gives exactly 300.  For
`max_items = 0` the code still returns the first document (see the
counterexample), so the truncation statement needs `1 ≤ max_items`. -/
theorem paginate_termination_spec :
    (∀ (rest : List (List GVal)) (ps : ℕ) (mi : Option ℕ),
        paginate ([] :: rest) ps mi = [])
    ∧ (∀ (docs : List GVal) (rest : List (List GVal)) (ps : ℕ),
        docs ≠ [] → docs.length < ps → paginate (docs :: rest) ps none = docs)
    ∧ (∀ (pages : List (List GVal)) (ps m : ℕ), 1 ≤ m →
        paginate pages ps (some m) = (paginate pages ps none).take m)
    ∧ (paginate pagesMock 200 none).length = 550
    ∧ (paginate pagesMock 200 (some 300)).length = 300 := by
  refine ⟨?_, ?_, ?_, by decide, by decide⟩
  · intro rest ps mi
    simp [paginate, paginateLoop]
  · intro docs rest ps hne hshort
    have hemp : docs.isEmpty = false := by
      cases docs with
      | nil => exact absurd rfl hne
      | cons d ds => rfl
    simp [paginate, paginateLoop, hemp, paginateConsume_none, hshort]
  · intro pages ps m hm
    exact paginateLoop_take pages ps m [] 0 rfl (by omega)

theorem paginate_termination_spec_witness :
    paginate ([] :: [[GVal.null]]) 3 (some 7) = []
    ∧ paginate [[GVal.null]] 5 none = [GVal.null]
    ∧ paginate [[GVal.null, GVal.null]] 2 (some 1) =
        (paginate [[GVal.null, GVal.null]] 2 none).take 1 :=
  ⟨paginate_termination_spec.1 [[GVal.null]] 3 (some 7),
   paginate_termination_spec.2.1 [GVal.null] [] 5 (by simp) (by decide),
   paginate_termination_spec.2.2.1 [[GVal.null, GVal.null]] 2 1 (by decide)⟩

/-! ### Query parameter builder (params.py)

Field values are modelled with their precise Python shapes: `PVal` is a
dynamic value as stored in the produced parameter dictionary or in the
`extras` escape hatch; `RangeV` is the tagged union
`str | (Optional lo, Optional hi)` accepted by `_format_range`; `SList`
is the `str | Iterable` union accepted by `_join_list`.  The straight
line of `if x is not None: params[key] = f(x)` statements in each
`to_query_params` is embedded as a fold of conditional dictionary
writes (`applyParamActions`) over the action list written in source
order. -/

/-- A Python value in a query-parameter dictionary. -/
inductive PVal where
  | pstr (s : String)
  | pint (n : Int)
  | pnum (q : ℚ)
  | pbool (b : Bool)
  | plist (xs : List PVal)
  | pnone

/-- Python `str()` of a parameter value.  Rational renderings differ
from CPython for non-integral floats and nested containers, neither of
which the repository ever serializes. -/
def pyStrP : PVal → String
  | .pstr s => s
  | .pint n => toString n
  | .pnum q => if q.den = 1 then toString q.num else toString q
  | .pbool b => if b then "True" else "False"
  | .plist _ => "<list>"
  | .pnone => "None"

/-- `",".join(str(s) for s in v)`. -/
def joinStrs (xs : List PVal) : String :=
  String.intercalate "," (xs.map pyStrP)

/-- The `str | Iterable` union handled by `_join_list`. -/
inductive SList where
  | raw (s : String)
  | items (xs : List PVal)

/-- `_join_list` (params.py) restricted to non-`None` input. -/
def join_list : SList → String
  | .raw s => s
  | .items xs => joinStrs xs

/-- The `str | (Optional, Optional)` union handled by `_format_range`. -/
inductive RangeV where
  | raw (s : String)
  | pair (lo hi : Option PVal)

/-- `"" if b is None else str(b)` for one side of a range. -/
def strOpt : Option PVal → String
  | none => ""
  | some v => pyStrP v

/-- `_format_range` (params.py) on a non-`None` value. -/
def format_range_val : RangeV → String
  | .raw s => s
  | .pair lo hi => strOpt lo ++ "," ++ strOpt hi

/-- `_format_range` (params.py). -/
def format_range (v : Option RangeV) : Option String :=
  v.map format_range_val

/-- `f"{bbox[0]},{bbox[1]},{bbox[2]},{bbox[3]}"`. -/
def qstr (q : ℚ) : String :=
  if q.den = 1 then toString q.num else toString q

def bboxStr (b : ℚ × ℚ × ℚ × ℚ) : String :=
  qstr b.1 ++ "," ++ qstr b.2.1 ++ "," ++ qstr b.2.2.1 ++ "," ++ qstr b.2.2.2

/-- Python dict item assignment `d[k] = v`: replaces in place, else
appends. -/
def dictSet (d : List (String × PVal)) (k : String) (v : PVal) : List (String × PVal) :=
  match d with
  | [] => [(k, v)]
  | (k', v') :: rest => if k' = k then (k, v) :: rest else (k', v') :: dictSet rest k v

/-- Dictionary lookup `d.get(k)` on a parameter dictionary. -/
def lookupP (d : List (String × PVal)) (k : String) : Option PVal :=
  match d with
  | [] => none
  | (k', v) :: rest => if k' = k then some v else lookupP rest k

/-- A sequence of `if x is not None: params[key] = value` statements:
each action is a wire key with an optional value; `none` means the
guarding field was `None` and the write is skipped. -/
def applyParamActions (d : List (String × PVal)) :
    List (String × Option PVal) → List (String × PVal)
  | [] => d
  | a :: rest =>
    match a.2 with
    | some v => applyParamActions (dictSet d a.1 v) rest
    | none => applyParamActions d rest

/-- The effect of one `extras` entry:
`if v is not None: params[k] = _join_list(v) if isinstance(v, (list, tuple)) else v`. -/
def extraAction : PVal → Option PVal
  | .pnone => none
  | .plist xs => some (.pstr (joinStrs xs))
  | v => some v

def extrasActions (extras : List (String × PVal)) : List (String × Option PVal) :=
  extras.map (fun kv => (kv.1, extraAction kv.2))

/-- `BaseSearchParams` (params.py). -/
structure BaseSearchParams where
  q : Option String := none
  lang : Option String := none
  bbox : Option (ℚ × ℚ × ℚ × ℚ) := none
  fields : Option SList := none
  orderby : Option String := none
  order : Option String := none
  limit : Option Int := none
  offset : Option Int := none
  extras : List (String × PVal) := []

/-- The named-field writes of `BaseSearchParams.to_query_params`, in
source order. -/
def baseActions (p : BaseSearchParams) : List (String × Option PVal) :=
  [("q", p.q.map .pstr),
   ("lang", p.lang.map .pstr),
   ("bbox", p.bbox.map (fun b => .pstr (bboxStr b))),
   ("fields", p.fields.map (fun f => .pstr (join_list f))),
   ("orderby", p.orderby.map .pstr),
   ("order", p.order.map .pstr),
   ("limit", p.limit.map .pint),
   ("offset", p.offset.map .pint)]

/-- `BaseSearchParams.to_query_params`: named fields first, extras
merged last. -/
def BaseSearchParams.to_query_params (p : BaseSearchParams) : List (String × PVal) :=
  applyParamActions [] (baseActions p ++ extrasActions p.extras)

/-- `RouteSearchParams` (params.py). -/
structure RouteSearchParams extends BaseSearchParams where
  act : Option SList := none
  waypoints : Option SList := none
  users : Option SList := none
  elevation : Option RangeV := none
  elevation_min : Option Int := none
  elevation_max : Option Int := none
  height_diff_up : Option RangeV := none
  height_diff_down : Option RangeV := none
  route_length : Option RangeV := none
  difficulties_height : Option RangeV := none
  height_diff_access : Option RangeV := none
  height_diff_difficulties : Option RangeV := none
  route_types : Option SList := none
  orientations : Option SList := none
  durations : Option RangeV := none
  glacier_gear : Option String := none
  configuration : Option SList := none
  ski_rating : Option RangeV := none
  ski_exposition : Option RangeV := none
  labande_ski_rating : Option RangeV := none
  labande_global_rating : Option RangeV := none
  global_rating : Option RangeV := none
  engagement_rating : Option RangeV := none
  risk_rating : Option RangeV := none
  equipment_rating : Option RangeV := none
  ice_rating : Option RangeV := none
  mixed_rating : Option RangeV := none
  exposition_rock_rating : Option RangeV := none
  rock_free_rating : Option RangeV := none
  rock_required_rating : Option RangeV := none
  aid_rating : Option RangeV := none
  via_ferrata_rating : Option RangeV := none
  hiking_rating : Option RangeV := none
  hiking_mtb_exposition : Option RangeV := none
  snowshoe_rating : Option RangeV := none
  mtb_up_rating : Option RangeV := none
  mtb_down_rating : Option RangeV := none
  mtb_length_asphalt : Option RangeV := none
  mtb_length_trail : Option RangeV := none
  mtb_height_diff_portages : Option RangeV := none
  rock_types : Option SList := none
  climbing_outdoor_type : Option SList := none
  slackline_type : Option String := none

/-- Short-hands used by the action tables. -/
def frAct (v : Option RangeV) : Option PVal := (format_range v).map .pstr

def jlAct (v : Option SList) : Option PVal := v.map (fun s => .pstr (join_list s))

/-- The kind-specific writes of `RouteSearchParams.to_query_params`, in
source order (the ratings follow the `for attr, key in [...]` loop
order). -/
def routeActions (p : RouteSearchParams) : List (String × Option PVal) :=
  [("act", jlAct p.act),
   ("w", jlAct p.waypoints),
   ("u", jlAct p.users),
   ("ele", frAct p.elevation),
   ("rmina", p.elevation_min.map .pint),
   ("rmaxa", p.elevation_max.map .pint),
   ("hdif", frAct p.height_diff_up),
   ("ddif", frAct p.height_diff_down),
   ("rlen", frAct p.route_length),
   ("ralt", frAct p.difficulties_height),
   ("rappr", frAct p.height_diff_access),
   ("dhei", frAct p.height_diff_difficulties),
   ("rtyp", jlAct p.route_types),
   ("fac", jlAct p.orientations),
   ("time", frAct p.durations),
   ("glac", p.glacier_gear.map .pstr),
   ("conf", jlAct p.configuration),
   ("trat", frAct p.ski_rating),
   ("sexpo", frAct p.ski_exposition),
   ("srat", frAct p.labande_ski_rating),
   ("lrat", frAct p.labande_global_rating),
   ("grat", frAct p.global_rating),
   ("erat", frAct p.engagement_rating),
   ("orrat", frAct p.risk_rating),
   ("prat", frAct p.equipment_rating),
   ("irat", frAct p.ice_rating),
   ("mrat", frAct p.mixed_rating),
   ("rexpo", frAct p.exposition_rock_rating),
   ("frat", frAct p.rock_free_rating),
   ("rrat", frAct p.rock_required_rating),
   ("arat", frAct p.aid_rating),
   ("krat", frAct p.via_ferrata_rating),
   ("hrat", frAct p.hiking_rating),
   ("hexpo", frAct p.hiking_mtb_exposition),
   ("wrat", frAct p.snowshoe_rating),
   ("mbur", frAct p.mtb_up_rating),
   ("mbdr", frAct p.mtb_down_rating),
   ("mbroad", frAct p.mtb_length_asphalt),
   ("mbtrack", frAct p.mtb_length_trail),
   ("mbpush", frAct p.mtb_height_diff_portages),
   ("rock", jlAct p.rock_types),
   ("crtyp", jlAct p.climbing_outdoor_type),
   ("sltyp", p.slackline_type.map .pstr)]

/-- `RouteSearchParams.to_query_params`: `params = super().to_query_params()`
(named base fields, then extras), then the kind-specific writes. -/
def RouteSearchParams.to_query_params (p : RouteSearchParams) : List (String × PVal) :=
  applyParamActions p.toBaseSearchParams.to_query_params (routeActions p)

/-- `WaypointSearchParams` (params.py). -/
structure WaypointSearchParams extends BaseSearchParams where
  act : Option SList := none
  wtyp : Option SList := none
  elevation : Option RangeV := none
  prominence : Option RangeV := none
  height_min : Option RangeV := none
  height_max : Option RangeV := none
  height_median : Option RangeV := none
  routes_quantity : Option RangeV := none
  length : Option RangeV := none
  capacity : Option RangeV := none
  capacity_staffed : Option RangeV := none
  rock_types : Option SList := none
  orientations : Option SList := none
  best_periods : Option SList := none
  lift_access : Option PVal := none
  custodianship : Option String := none
  climbing_styles : Option SList := none
  access_time : Option RangeV := none
  climbing_rating_max : Option RangeV := none
  climbing_rating_min : Option RangeV := none
  climbing_rating_median : Option RangeV := none
  children_proof : Option String := none
  rain_proof : Option String := none
  climbing_outdoor_types : Option SList := none
  climbing_indoor_types : Option SList := none
  paragliding_rating : Option RangeV := none
  exposition_rating : Option RangeV := none
  weather_station_types : Option SList := none
  equipment_ratings : Option RangeV := none
  public_transportation_types : Option SList := none
  public_transportation_rating : Option String := none
  snow_clearance_rating : Option String := none
  product_types : Option SList := none

/-- `str(v).lower() if isinstance(v, bool) else v` for `lift_access`. -/
def pliftAction : PVal → PVal
  | .pbool b => .pstr (if b then "true" else "false")
  | v => v

/-- The kind-specific writes of `WaypointSearchParams.to_query_params`,
in source order (both `for attr, key in [...]` loops inlined in their
order).  Note `children_proof` and `rain_proof` are declared fields the
method never serializes. -/
def waypointActions (p : WaypointSearchParams) : List (String × Option PVal) :=
  [("act", jlAct p.act),
   ("wtyp", jlAct p.wtyp),
   ("walt", frAct p.elevation),
   ("prom", frAct p.prominence),
   ("tminh", frAct p.height_min),
   ("tmaxh", frAct p.height_max),
   ("tmedh", frAct p.height_median),
   ("rqua", frAct p.routes_quantity),
   ("len", frAct p.length),
   ("hucap", frAct p.capacity),
   ("hscap", frAct p.capacity_staffed),
   ("wrock", jlAct p.rock_types),
   ("wfac", jlAct p.orientations),
   ("period", jlAct p.best_periods),
   ("plift", p.lift_access.map pliftAction),
   ("hsta", p.custodianship.map .pstr),
   ("tcsty", jlAct p.climbing_styles),
   ("tappt", frAct p.access_time),
   ("tmaxr", frAct p.climbing_rating_max),
   ("tminr", frAct p.climbing_rating_min),
   ("tmedr", frAct p.climbing_rating_median),
   ("pgrat", frAct p.paragliding_rating),
   ("pglexp", frAct p.exposition_rating),
   ("anchq", frAct p.equipment_ratings),
   ("ctout", jlAct p.climbing_outdoor_types),
   ("ctin", jlAct p.climbing_indoor_types),
   ("whtyp", jlAct p.weather_station_types),
   ("tpty", jlAct p.public_transportation_types),
   ("tp", p.public_transportation_rating.map .pstr),
   ("psnow", p.snow_clearance_rating.map .pstr),
   ("ftyp", jlAct p.product_types)]

/-- `WaypointSearchParams.to_query_params`. -/
def WaypointSearchParams.to_query_params (p : WaypointSearchParams) : List (String × PVal) :=
  applyParamActions p.toBaseSearchParams.to_query_params (waypointActions p)

/-- The value the last executed write in an action list assigns to a
key, if any. -/
def lastWrite : List (String × Option PVal) → String → Option PVal
  | [], _ => none
  | a :: rest, k =>
    match lastWrite rest k with
    | some v => some v
    | none => if a.1 = k then a.2 else none

theorem lookupP_dictSet_self (d : List (String × PVal)) (k : String) (v : PVal) :
    lookupP (dictSet d k v) k = some v := by
  induction d with
  | nil => simp [dictSet, lookupP]
  | cons p rest ih =>
    obtain ⟨k', v'⟩ := p
    by_cases hk : k' = k
    · simp [dictSet, hk, lookupP]
    · simp [dictSet, hk, lookupP, ih]

theorem lookupP_dictSet_ne (d : List (String × PVal)) (k k' : String) (v : PVal)
    (h : k' ≠ k) : lookupP (dictSet d k' v) k = lookupP d k := by
  induction d with
  | nil => simp [dictSet, lookupP, h]
  | cons p rest ih =>
    obtain ⟨k'', v''⟩ := p
    by_cases hk : k'' = k'
    · subst hk
      simp [dictSet, lookupP, h, ih]
    · simp [dictSet, hk, lookupP, ih]

theorem lookupP_applyParamActions (acts : List (String × Option PVal)) :
    ∀ (d : List (String × PVal)) (k : String),
      lookupP (applyParamActions d acts) k =
        match lastWrite acts k with
        | some v => some v
        | none => lookupP d k := by
  induction acts with
  | nil => intro d k; simp [applyParamActions, lastWrite]
  | cons a rest ih =>
    intro d k
    obtain ⟨ak, av⟩ := a
    cases av with
    | none =>
      simp only [applyParamActions]
      rw [ih]
      cases hlw : lastWrite rest k <;> simp [lastWrite, hlw]
    | some v =>
      simp only [applyParamActions]
      rw [ih]
      cases hlw : lastWrite rest k with
      | some w => simp [lastWrite, hlw]
      | none =>
        by_cases hak : ak = k
        · subst hak
          simp [lastWrite, hlw, lookupP_dictSet_self]
        · simp [lastWrite, hlw, hak, lookupP_dictSet_ne _ _ _ _ hak]

theorem lastWrite_append (l1 l2 : List (String × Option PVal)) (k : String) :
    lastWrite (l1 ++ l2) k =
      match lastWrite l2 k with
      | some v => some v
      | none => lastWrite l1 k := by
  induction l1 with
  | nil => cases hlw : lastWrite l2 k <;> simp [lastWrite, hlw]
  | cons a rest ih =>
    simp only [List.cons_append, lastWrite, List.append_eq]
    rw [ih]
    cases hlw : lastWrite l2 k <;> cases hlr : lastWrite rest k <;> simp [hlw, hlr]

theorem lastWrite_not_mem (acts : List (String × Option PVal)) (k : String)
    (h : k ∉ acts.map Prod.fst) : lastWrite acts k = none := by
  induction acts with
  | nil => rfl
  | cons a rest ih =>
    simp only [List.map, List.mem_cons, not_or] at h
    have hne : a.1 ≠ k := fun he => h.1 he.symm
    simp [lastWrite, ih h.2, hne]

theorem lastWrite_extras_mem (extras : List (String × PVal)) (k : String) (v : PVal)
    (hnd : (extras.map Prod.fst).Nodup) (hmem : (k, v) ∈ extras) :
    lastWrite (extrasActions extras) k = extraAction v := by
  induction extras with
  | nil => simp at hmem
  | cons e rest ih =>
    obtain ⟨ek, ev⟩ := e
    simp only [List.map, List.nodup_cons] at hnd
    rcases List.mem_cons.mp hmem with he | hrest
    · injection he with hk hv
      subst hk
      subst hv
      have h0 : lastWrite (extrasActions rest) k = none :=
        lastWrite_not_mem _ _ (by simpa [extrasActions, Function.comp] using hnd.1)
      simp only [extrasActions, List.map, lastWrite] at h0 ⊢
      rw [h0]
      simp
    · have hkne : ek ≠ k := by
        intro he
        subst he
        exact hnd.1 (List.mem_map.mpr ⟨(ek, v), hrest, rfl⟩)
      have hres := ih hnd.2 hrest
      simp only [extrasActions, List.map, lastWrite] at hres ⊢
      rw [hres]
      cases hv : extraAction v <;> simp [hv, hkne]

-- Sanity checks against the repository's own params tests
-- (test_params.py).
def pRouteTest : RouteSearchParams :=
  { q := some "alps", lang := some "fr", bbox := some (0, 1, 2, 3),
    fields := some (.items [.pstr "a", .pstr "b"]),
    orderby := some "elevation_max", order := some "desc",
    limit := some 50, offset := some 10,
    act := some (.items [.pstr "rock_climbing", .pstr "mountain_climbing"]),
    waypoints := some (.items [.pint 123, .pint 456]),
    users := some (.raw "789"),
    elevation := some (.pair (some (.pint 1000)) (some (.pint 3000))),
    elevation_min := some 900, elevation_max := some 3500,
    height_diff_up := some (.pair (some (.pint 200)) none),
    route_length := some (.pair none (some (.pint 10000))),
    orientations := some (.items [.pstr "W", .pstr "S"]),
    route_types := some (.items [.pstr "rock_climbing"]),
    global_rating := some (.pair (some (.pstr "AD")) (some (.pstr "D+"))),
    rock_free_rating := some (.pair (some (.pstr "6a")) (some (.pstr "6c+"))),
    rock_required_rating := some (.pair (some (.pstr "5c")) none),
    mtb_length_asphalt := some (.pair (some (.pint 0)) (some (.pint 5))),
    rock_types := some (.items [.pstr "limestone"]),
    extras := [("prom", .pint 300)] }

example : lookupP pRouteTest.to_query_params "q" = some (.pstr "alps") := rfl
example : lookupP pRouteTest.to_query_params "bbox" = some (.pstr "0,1,2,3") := rfl
example : lookupP pRouteTest.to_query_params "fields" = some (.pstr "a,b") := rfl
example : lookupP pRouteTest.to_query_params "limit" = some (.pint 50) := rfl
example : lookupP pRouteTest.to_query_params "act" =
    some (.pstr "rock_climbing,mountain_climbing") := rfl
example : lookupP pRouteTest.to_query_params "w" = some (.pstr "123,456") := rfl
example : lookupP pRouteTest.to_query_params "u" = some (.pstr "789") := rfl
example : lookupP pRouteTest.to_query_params "ele" = some (.pstr "1000,3000") := rfl
example : lookupP pRouteTest.to_query_params "rmina" = some (.pint 900) := rfl
example : lookupP pRouteTest.to_query_params "hdif" = some (.pstr "200,") := rfl
example : lookupP pRouteTest.to_query_params "rlen" = some (.pstr ",10000") := rfl
example : lookupP pRouteTest.to_query_params "fac" = some (.pstr "W,S") := rfl
example : lookupP pRouteTest.to_query_params "grat" = some (.pstr "AD,D+") := rfl
example : lookupP pRouteTest.to_query_params "frat" = some (.pstr "6a,6c+") := rfl
example : lookupP pRouteTest.to_query_params "rrat" = some (.pstr "5c,") := rfl
example : lookupP pRouteTest.to_query_params "mbroad" = some (.pstr "0,5") := rfl
example : lookupP pRouteTest.to_query_params "rock" = some (.pstr "limestone") := rfl
example : lookupP pRouteTest.to_query_params "prom" = some (.pint 300) := rfl

example :
    lookupP (WaypointSearchParams.to_query_params
      { wtyp := some (.items [.pstr "paragliding_takeoff", .pstr "summit"]),
        prominence := some (.pair (some (.pint 300)) none),
        lift_access := some (.pbool true) }) "wtyp" =
      some (.pstr "paragliding_takeoff,summit") := rfl
example :
    lookupP (WaypointSearchParams.to_query_params
      { prominence := some (.pair (some (.pint 300)) none) }) "prom" =
      some (.pstr "300,") := rfl
example :
    lookupP (WaypointSearchParams.to_query_params
      { lift_access := some (.pbool true) }) "plift" = some (.pstr "true") := rfl

/-- **C8** — range-valued filter fields serialize as `"lo,hi"` with an
empty side for an open (`None`) bound, pre-formatted strings pass
through unchanged, and the three concrete route filters serialize as
`ele == "1000,3000"`, `hdif == "200,"` and `rlen == ",10000"`. -/
theorem range_field_serialization :
    (∀ lo hi : PVal,
        format_range (some (.pair (some lo) (some hi))) =
          some (pyStrP lo ++ "," ++ pyStrP hi))
    ∧ (∀ lo : PVal, format_range (some (.pair (some lo) none)) = some (pyStrP lo ++ ","))
    ∧ (∀ hi : PVal, format_range (some (.pair none (some hi))) = some ("," ++ pyStrP hi))
    ∧ (∀ s : String, format_range (some (.raw s)) = some s)
    ∧ format_range none = none
    ∧ lookupP (RouteSearchParams.to_query_params
        { elevation := some (.pair (some (.pint 1000)) (some (.pint 3000))) }) "ele" =
        some (.pstr "1000,3000")
    ∧ lookupP (RouteSearchParams.to_query_params
        { height_diff_up := some (.pair (some (.pint 200)) none) }) "hdif" =
        some (.pstr "200,")
    ∧ lookupP (RouteSearchParams.to_query_params
        { route_length := some (.pair none (some (.pint 10000))) }) "rlen" =
        some (.pstr ",10000") := by
  refine ⟨?_, ?_, ?_, fun s => rfl, rfl, rfl, rfl, rfl⟩
  · intro lo hi
    rfl
  · intro lo
    simp [format_range, format_range_val, strOpt]
  · intro hi
    rfl

/-- The filter of the **C3 counterexample**: a named kind-specific field
and an `extras` entry that target the same wire key `ele`. -/
def extrasClashParams : RouteSearchParams :=
  { elevation := some (.pair (some (.pint 1000)) (some (.pint 3000))),
    extras := [("ele", .pstr "X")] }

/-- **C3 counterexample** — the extension map does *not* overwrite
kind-specific keys: `RouteSearchParams.to_query_params` applies the
named `elevation` field *after* the extras merge (which happens inside
the base-class serialization), so `ele` ends up `"1000,3000"`, not the
extras value `"X"`. -/
theorem extras_override_counterexample :
    lookupP extrasClashParams.to_query_params "ele" = some (.pstr "1000,3000")
    ∧ lookupP extrasClashParams.to_query_params "ele" ≠ some (.pstr "X") := by
  refine ⟨rfl, ?_⟩
  rw [show lookupP extrasClashParams.to_query_params "ele" = some (.pstr "1000,3000")
      from rfl]
  simp

/-- **C3 (amended)** — the extras merge is last only within the
base-class serialization: an `extras` entry overwrites any key produced
by a named *base* field (and lands verbatim for keys no named field
produces), but the kind-specific named fields of `RouteSearchParams`
and `WaypointSearchParams` are applied *after* the extras merge and win
whenever both target the same wire key (e.g. `ele`, `prom`). -/
theorem extras_merge_position :
    (∀ (p : BaseSearchParams) (k : String) (v w : PVal),
        (p.extras.map Prod.fst).Nodup → (k, v) ∈ p.extras → extraAction v = some w →
        lookupP p.to_query_params k = some w)
    ∧ (∀ (p : RouteSearchParams) (r : RangeV), p.elevation = some r →
        lookupP p.to_query_params "ele" = some (.pstr (format_range_val r)))
    ∧ (∀ (p : WaypointSearchParams) (r : RangeV), p.prominence = some r →
        lookupP p.to_query_params "prom" = some (.pstr (format_range_val r))) := by
  refine ⟨?_, ?_, ?_⟩
  · intro p k v w hnd hmem hact
    rw [BaseSearchParams.to_query_params, lookupP_applyParamActions, lastWrite_append,
        lastWrite_extras_mem p.extras k v hnd hmem, hact]
  · intro p r h
    rw [RouteSearchParams.to_query_params, lookupP_applyParamActions]
    simp [routeActions, lastWrite, h, frAct, format_range]
  · intro p r h
    rw [WaypointSearchParams.to_query_params, lookupP_applyParamActions]
    simp [waypointActions, lastWrite, h, frAct, format_range]

theorem extras_merge_position_witness :
    lookupP (BaseSearchParams.to_query_params { extras := [("prom", .pint 300)] })
        "prom" = some (.pint 300)
    ∧ lookupP (RouteSearchParams.to_query_params
        { elevation := some (.raw "1,2"), extras := [("ele", .pstr "Y")] }) "ele" =
        some (.pstr (format_range_val (.raw "1,2")))
    ∧ lookupP (WaypointSearchParams.to_query_params
        { prominence := some (.pair (some (.pint 300)) none) }) "prom" =
        some (.pstr (format_range_val (.pair (some (.pint 300)) none))) :=
  ⟨extras_merge_position.1 _ "prom" (.pint 300) (.pint 300)
      (by simp) (List.Mem.head _) rfl,
   extras_merge_position.2.1 _ (.raw "1,2") rfl,
   extras_merge_position.2.2 _ (.pair (some (.pint 300)) none) rfl⟩

/-! ### Projections and distance (geo.py)

The float math of `lonlat_to_webmercator` / `webmercator_to_lonlat` /
`mercator_point_distance_m` is modelled over `ℝ`; the claimed
"within floating-point tolerance" round trip is proved exact in the
real model. -/

/-- `_R = 6378137.0`, the WGS84 spheroid radius. -/
noncomputable def earthR : ℝ := 6378137.0

/-- `math.radians`. -/
noncomputable def radians (x : ℝ) : ℝ := x * Real.pi / 180

/-- `math.degrees`. -/
noncomputable def degrees (x : ℝ) : ℝ := x * 180 / Real.pi

/-- `lonlat_to_webmercator` (geo.py): clamp latitude to
`±85.05112878`, then the spherical forward Mercator formulas. -/
noncomputable def lonlat_to_webmercator (lon lat : ℝ) : ℝ × ℝ :=
  let max_lat : ℝ := 85.05112878
  let latClamped := max (min lat max_lat) (-max_lat)
  (radians lon * earthR,
   Real.log (Real.tan (Real.pi / 4 + radians latClamped / 2)) * earthR)

/-- `webmercator_to_lonlat` (geo.py). -/
noncomputable def webmercator_to_lonlat (x y : ℝ) : ℝ × ℝ :=
  (degrees (x / earthR),
   degrees (2 * Real.arctan (Real.exp (y / earthR)) - Real.pi / 2))

/-- `mercator_point_distance_m` (geo.py): `math.hypot` on the planar
deltas; the points are the `ℚ`-valued extracted document points. -/
noncomputable def mercator_point_distance_m (p1 p2 : ℚ × ℚ) : ℝ :=
  Real.sqrt (((p1.1 : ℝ) - (p2.1 : ℝ)) ^ 2 + ((p1.2 : ℝ) - (p2.2 : ℝ)) ^ 2)

/-- `expand_bbox` (geo.py). -/
def expand_bbox (minx miny maxx maxy pad_m : ℝ) : ℝ × ℝ × ℝ × ℝ :=
  (minx - pad_m, miny - pad_m, maxx + pad_m, maxy + pad_m)

-- The 3-4-5 sanity check from test_geo.py.
example : mercator_point_distance_m (0, 0) (3, 4) = 5 := by
  rw [mercator_point_distance_m]
  norm_num
  rw [show (25 : ℝ) = 5 ^ 2 by norm_num, Real.sqrt_sq (by norm_num)]

example : expand_bbox 0 0 10 10 2 = (-2, -2, 12, 12) := by
  simp [expand_bbox]
  norm_num

/-- **C7** — for latitudes strictly inside (−85.05, 85.05) the
projection round-trips exactly in the real model (the claim's
floating-point tolerance), and any latitude of magnitude above the
clamping bound 85.05112878 projects identically to the clamped
latitude `sign(lat) · 85.05112878`. -/
theorem projection_roundtrip_and_clamp :
    (∀ lon lat : ℝ, -85.05 < lat → lat < 85.05 →
        webmercator_to_lonlat (lonlat_to_webmercator lon lat).1
          (lonlat_to_webmercator lon lat).2 = (lon, lat))
    ∧ (∀ lon lat : ℝ, 85.05112878 < |lat| →
        lonlat_to_webmercator lon lat =
          lonlat_to_webmercator lon (Real.sign lat * 85.05112878)) := by
  have hpi := Real.pi_pos
  have hR : earthR ≠ 0 := by rw [earthR]; norm_num
  constructor
  · intro lon lat h1 h2
    have hclamp : max (min lat 85.05112878) (-85.05112878) = lat := by
      rw [min_eq_left (by linarith), max_eq_left (by linarith)]
    have hθ1 : 0 < Real.pi / 4 + radians lat / 2 := by
      rw [radians]
      nlinarith
    have hθ2 : Real.pi / 4 + radians lat / 2 < Real.pi / 2 := by
      rw [radians]
      nlinarith
    have htan : 0 < Real.tan (Real.pi / 4 + radians lat / 2) :=
      Real.tan_pos_of_pos_of_lt_pi_div_two hθ1 hθ2
    simp only [lonlat_to_webmercator, webmercator_to_lonlat, hclamp, Prod.mk.injEq]
    constructor
    · rw [radians, degrees]
      field_simp
      ring
    · rw [mul_div_assoc, div_self hR, mul_one, Real.exp_log htan,
          Real.arctan_tan (by linarith) hθ2, degrees, radians]
      field_simp
      ring
  · intro lon lat h
    have key : max (min lat 85.05112878) (-85.05112878) =
        max (min (Real.sign lat * 85.05112878) 85.05112878) (-85.05112878) := by
      rcases lt_abs.mp h with hgt | hlt
      · rw [Real.sign_of_pos (by linarith), one_mul,
            min_eq_right (le_of_lt hgt), min_self]
      · have hneg : lat < -85.05112878 := by linarith
        rw [Real.sign_of_neg (by linarith), neg_one_mul,
            min_eq_left (show lat ≤ (85.05112878 : ℝ) by linarith),
            min_eq_left (show (-85.05112878 : ℝ) ≤ 85.05112878 by norm_num),
            max_eq_right (show lat ≤ (-85.05112878 : ℝ) by linarith), max_self]
    simp only [lonlat_to_webmercator]
    rw [key]

theorem projection_roundtrip_and_clamp_witness :
    webmercator_to_lonlat (lonlat_to_webmercator 0 0).1
        (lonlat_to_webmercator 0 0).2 = (0, 0)
    ∧ lonlat_to_webmercator 0 86 =
        lonlat_to_webmercator 0 (Real.sign 86 * 85.05112878) :=
  ⟨projection_roundtrip_and_clamp.1 0 0 (by norm_num) (by norm_num),
   projection_roundtrip_and_clamp.2 0 86 (by rw [abs_of_pos (by norm_num)]; norm_num)⟩

/-! ### Proximity matcher (search.py, `C2CSearch.routes_near_waypoints`)

The route fetch `routes_in_bbox_all(bbox, page_size, max_items, params)`
— client, query parameters and pagination together — is abstracted by a
function `fetch` from the query bounding box to the list of route
documents it returns; the claims quantify over every fetched route set.
Python's `list.sort(key=...)` is a stable ascending sort; since a
stable sort's output is uniquely determined by its input and key, it is
modelled by `List.insertionSort` on the distance key. -/

/-- The `NearbyMatch` dataclass (search.py). -/
structure NearbyMatch where
  route : GVal
  waypoint : GVal
  distance_m : ℝ

/-- The sort key comparison `lambda m: m.distance_m`. -/
def matchLE (a b : NearbyMatch) : Prop := a.distance_m ≤ b.distance_m

noncomputable instance : DecidableRel matchLE :=
  fun a b => Real.decidableLE a.distance_m b.distance_m

instance : IsTotal NearbyMatch matchLE := ⟨fun a b => le_total a.distance_m b.distance_m⟩

instance : IsTrans NearbyMatch matchLE := ⟨fun _ _ _ => le_trans⟩

/-- The `isinstance(bbox, (list, tuple)) and len(bbox) == 4` test of the
fallback branch, on a mapping's `bbox` field. -/
def bboxCorners (fs : List (String × GVal)) : Option (GVal × GVal × GVal × GVal) :=
  match lookupG fs "bbox" with
  | some (.arr [a, b, c, d]) => some (a, b, c, d)
  | _ => none

/-- The aggregate-extent loop of `routes_near_waypoints`: collect each
waypoint's `doc_point_xy`, else the corners of a 4-element `bbox`
(floats converted in the order `bbox[0], bbox[2], bbox[1], bbox[3]` of
the two `extend` calls).  A non-mapping waypoint raises
`AttributeError` at `wp.get("bbox")`. -/
def collectXY : List GVal → Except PyErr (List ℚ × List ℚ)
  | [] => .ok ([], [])
  | wp :: rest =>
    match doc_point_xy wp with
    | .error e => .error e
    | .ok (some p) =>
        match collectXY rest with
        | .error e => .error e
        | .ok (xs, ys) => .ok (p.1 :: xs, p.2 :: ys)
    | .ok none =>
        match wp with
        | .obj fs =>
          match bboxCorners fs with
          | some (a, b, c, d) =>
              (match pyFloat a, pyFloat c, pyFloat b, pyFloat d with
               | .ok fa, .ok fc, .ok fb, .ok fd =>
                  (match collectXY rest with
                   | .error e => .error e
                   | .ok (xs, ys) => .ok (fa :: fc :: xs, fb :: fd :: ys))
               | .error e, _, _, _ => .error e
               | .ok _, .error e, _, _ => .error e
               | .ok _, .ok _, .error e, _ => .error e
               | .ok _, .ok _, .ok _, .error e => .error e)
          | none => collectXY rest
        | _ => .error .attributeError

/-- Python `min` over a non-empty list (the `[]` default is never
reached behind the emptiness guard). -/
def listMin : List ℚ → ℚ
  | [] => 0
  | x :: rest => rest.foldl min x

/-- Python `max` over a non-empty list. -/
def listMax : List ℚ → ℚ
  | [] => 0
  | x :: rest => rest.foldl max x

/-- The inner `for wp in wps` loop of the distance join. -/
noncomputable def matchWaypoints (route : GVal) (rpt : ℚ × ℚ) (maxDist : ℝ) :
    List GVal → Except PyErr (List NearbyMatch)
  | [] => .ok []
  | wp :: rest =>
    match doc_point_xy wp with
    | .error e => .error e
    | .ok none => matchWaypoints route rpt maxDist rest
    | .ok (some wpt) =>
      let d := mercator_point_distance_m rpt wpt
      match matchWaypoints route rpt maxDist rest with
      | .error e => .error e
      | .ok ms => if d ≤ maxDist then .ok (⟨route, wp, d⟩ :: ms) else .ok ms

/-- The outer `for route in routes` loop of the distance join. -/
noncomputable def buildMatches (routes wps : List GVal) (maxDist : ℝ) :
    Except PyErr (List NearbyMatch) :=
  match routes with
  | [] => .ok []
  | r :: rest =>
    match doc_point_xy r with
    | .error e => .error e
    | .ok none => buildMatches rest wps maxDist
    | .ok (some rpt) =>
      match matchWaypoints r rpt maxDist wps with
      | .error e => .error e
      | .ok ms1 =>
        match buildMatches rest wps maxDist with
        | .error e => .error e
        | .ok ms2 => .ok (ms1 ++ ms2)

/-- The tail of `routes_near_waypoints` after the route fetch: the
all-pairs join followed by the stable ascending sort
(`matches.sort(key=lambda m: m.distance_m)`). -/
noncomputable def matchAndSort (routes wps : List GVal) (maxDist : ℝ) :
    Except PyErr (List NearbyMatch) :=
  match buildMatches routes wps maxDist with
  | .error e => .error e
  | .ok ds => .ok (List.insertionSort matchLE ds)

/-- `routes_near_waypoints` (search.py). -/
noncomputable def routes_near_waypoints (fetch : ℝ × ℝ × ℝ × ℝ → List GVal)
    (wps : List GVal) (max_distance_m : ℝ) : Except PyErr (List NearbyMatch) :=
  if wps.isEmpty then .ok []
  else
    match collectXY wps with
    | .error e => .error e
    | .ok (xs, ys) =>
      if xs.isEmpty || ys.isEmpty then .ok []
      else
        let pad := max max_distance_m 1000.0
        let bb := expand_bbox ((listMin xs : ℚ) : ℝ) ((listMin ys : ℚ) : ℝ)
          ((listMax xs : ℚ) : ℝ) ((listMax ys : ℚ) : ℝ) pad
        matchAndSort (fetch bb) wps max_distance_m

/-- The query region `routes_near_waypoints` sends to the route fetch,
when one exists. -/
noncomputable def queryRegionOf (wps : List GVal) (max_distance_m : ℝ) :
    Option (ℝ × ℝ × ℝ × ℝ) :=
  match collectXY wps with
  | .error _ => none
  | .ok (xs, ys) =>
    if xs.isEmpty || ys.isEmpty then none
    else some (expand_bbox ((listMin xs : ℚ) : ℝ) ((listMin ys : ℚ) : ℝ)
      ((listMax xs : ℚ) : ℝ) ((listMax ys : ℚ) : ℝ) (max max_distance_m 1000.0))

theorem routes_near_eq_region (fetch : ℝ × ℝ × ℝ × ℝ → List GVal)
    (wps : List GVal) (maxDist : ℝ) (bb : ℝ × ℝ × ℝ × ℝ)
    (hbb : queryRegionOf wps maxDist = some bb) :
    routes_near_waypoints fetch wps maxDist = matchAndSort (fetch bb) wps maxDist := by
  unfold queryRegionOf at hbb
  unfold routes_near_waypoints
  cases hw : wps.isEmpty
  · rw [if_neg (by simp [hw])]
    cases hc : collectXY wps with
    | error e => simp [hc] at hbb
    | ok p =>
      obtain ⟨xs, ys⟩ := p
      simp only [hc] at hbb ⊢
      by_cases hemp : (xs.isEmpty || ys.isEmpty) = true
      · simp [hemp] at hbb
      · simp only [Bool.not_eq_true] at hemp
        simp only [hemp, Bool.false_eq_true, if_false, Option.some.injEq] at hbb
        simp only [hemp, Bool.false_eq_true, if_false]
        rw [hbb]
  · exfalso
    have : wps = [] := List.isEmpty_iff.mp hw
    subst this
    simp [collectXY] at hbb

theorem matchWaypoints_bounded (route : GVal) (rpt : ℚ × ℚ) (maxDist : ℝ) :
    ∀ (wps : List GVal) (ms : List NearbyMatch),
      matchWaypoints route rpt maxDist wps = .ok ms →
      ∀ m ∈ ms, m.distance_m ≤ maxDist := by
  intro wps
  induction wps with
  | nil =>
    intro ms h
    simp only [matchWaypoints, Except.ok.injEq] at h
    subst h
    simp
  | cons wp rest ih =>
    intro ms h
    simp only [matchWaypoints] at h
    cases hd : doc_point_xy wp with
    | error e => simp [hd] at h
    | ok o =>
      simp only [hd] at h
      cases o with
      | none => exact ih ms h
      | some wpt =>
        cases hrec : matchWaypoints route rpt maxDist rest with
        | error e => simp [hrec] at h
        | ok ms' =>
          simp only [hrec] at h
          by_cases hle : mercator_point_distance_m rpt wpt ≤ maxDist
          · rw [if_pos hle] at h
            simp only [Except.ok.injEq] at h
            subst h
            intro m hm
            rcases List.mem_cons.mp hm with he | ht
            · subst he; exact hle
            · exact ih ms' hrec m ht
          · rw [if_neg hle] at h
            simp only [Except.ok.injEq] at h
            subst h
            exact ih ms' hrec

theorem matchWaypoints_mem (route : GVal) (rpt : ℚ × ℚ) (maxDist : ℝ) :
    ∀ (wps : List GVal) (ms : List NearbyMatch),
      matchWaypoints route rpt maxDist wps = .ok ms →
      ∀ (wp : GVal) (wpt : ℚ × ℚ), wp ∈ wps →
        doc_point_xy wp = .ok (some wpt) →
        mercator_point_distance_m rpt wpt ≤ maxDist →
        NearbyMatch.mk route wp (mercator_point_distance_m rpt wpt) ∈ ms := by
  intro wps
  induction wps with
  | nil =>
    intro ms _ wp wpt hmem
    simp at hmem
  | cons wp0 rest ih =>
    intro ms h wp wpt hmem hpt hle
    simp only [matchWaypoints] at h
    rcases List.mem_cons.mp hmem with he | ht
    · subst he
      simp only [hpt] at h
      cases hrec : matchWaypoints route rpt maxDist rest with
      | error e => simp [hrec] at h
      | ok ms' =>
        simp only [hrec] at h
        rw [if_pos hle] at h
        simp only [Except.ok.injEq] at h
        subst h
        exact List.mem_cons_self _ _
    · cases hd : doc_point_xy wp0 with
      | error e => simp [hd] at h
      | ok o =>
        simp only [hd] at h
        cases o with
        | none => exact ih ms h wp wpt ht hpt hle
        | some wpt0 =>
          cases hrec : matchWaypoints route rpt maxDist rest with
          | error e => simp [hrec] at h
          | ok ms' =>
            simp only [hrec] at h
            have hmem' := ih ms' hrec wp wpt ht hpt hle
            by_cases hle0 : mercator_point_distance_m rpt wpt0 ≤ maxDist
            · rw [if_pos hle0] at h
              simp only [Except.ok.injEq] at h
              subst h
              exact List.mem_cons_of_mem _ hmem'
            · rw [if_neg hle0] at h
              simp only [Except.ok.injEq] at h
              subst h
              exact hmem'

theorem buildMatches_bounded (wps : List GVal) (maxDist : ℝ) :
    ∀ (routes : List GVal) (ds : List NearbyMatch),
      buildMatches routes wps maxDist = .ok ds →
      ∀ m ∈ ds, m.distance_m ≤ maxDist := by
  intro routes
  induction routes with
  | nil =>
    intro ds h
    simp only [buildMatches, Except.ok.injEq] at h
    subst h
    simp
  | cons r rest ih =>
    intro ds h
    simp only [buildMatches] at h
    cases hd : doc_point_xy r with
    | error e => simp [hd] at h
    | ok o =>
      simp only [hd] at h
      cases o with
      | none => exact ih ds h
      | some rpt =>
        cases hmw : matchWaypoints r rpt maxDist wps with
        | error e => simp [hmw] at h
        | ok ms1 =>
          simp only [hmw] at h
          cases hrec : buildMatches rest wps maxDist with
          | error e => simp [hrec] at h
          | ok ms2 =>
            simp only [hrec] at h
            simp only [Except.ok.injEq] at h
            subst h
            intro m hm
            rcases List.mem_append.mp hm with h1 | h2
            · exact matchWaypoints_bounded r rpt maxDist wps ms1 hmw m h1
            · exact ih ms2 hrec m h2

theorem buildMatches_mem (wps : List GVal) (maxDist : ℝ) :
    ∀ (routes : List GVal) (ds : List NearbyMatch),
      buildMatches routes wps maxDist = .ok ds →
      ∀ (r wp : GVal) (rpt wpt : ℚ × ℚ), r ∈ routes → wp ∈ wps →
        doc_point_xy r = .ok (some rpt) → doc_point_xy wp = .ok (some wpt) →
        mercator_point_distance_m rpt wpt ≤ maxDist →
        NearbyMatch.mk r wp (mercator_point_distance_m rpt wpt) ∈ ds := by
  intro routes
  induction routes with
  | nil =>
    intro ds _ r wp rpt wpt hr
    simp at hr
  | cons r0 rest ih =>
    intro ds h r wp rpt wpt hr hw hrpt hwpt hle
    simp only [buildMatches] at h
    rcases List.mem_cons.mp hr with he | ht
    · subst he
      simp only [hrpt] at h
      cases hmw : matchWaypoints r rpt maxDist wps with
      | error e => simp [hmw] at h
      | ok ms1 =>
        simp only [hmw] at h
        cases hrec : buildMatches rest wps maxDist with
        | error e => simp [hrec] at h
        | ok ms2 =>
          simp only [hrec] at h
          simp only [Except.ok.injEq] at h
          subst h
          exact List.mem_append_left _
            (matchWaypoints_mem r rpt maxDist wps ms1 hmw wp wpt hw hwpt hle)
    · cases hd : doc_point_xy r0 with
      | error e => simp [hd] at h
      | ok o =>
        simp only [hd] at h
        cases o with
        | none => exact ih ds h r wp rpt wpt ht hw hrpt hwpt hle
        | some rpt0 =>
          cases hmw : matchWaypoints r0 rpt0 maxDist wps with
          | error e => simp [hmw] at h
          | ok ms1 =>
            simp only [hmw] at h
            cases hrec : buildMatches rest wps maxDist with
            | error e => simp [hrec] at h
            | ok ms2 =>
              simp only [hrec] at h
              simp only [Except.ok.injEq] at h
              subst h
              exact List.mem_append_right _
                (ih ms2 hrec r wp rpt wpt ht hw hrpt hwpt hle)

theorem filter_orderedInsert (d : ℝ) (a : NearbyMatch) (l : List NearbyMatch) :
    (List.orderedInsert matchLE a l).filter (fun m => decide (m.distance_m = d)) =
      if a.distance_m = d
      then a :: l.filter (fun m => decide (m.distance_m = d))
      else l.filter (fun m => decide (m.distance_m = d)) := by
  induction l with
  | nil =>
    by_cases had : a.distance_m = d <;> simp [List.orderedInsert, List.filter, had]
  | cons x xs ih =>
    simp only [List.orderedInsert]
    by_cases hax : matchLE a x
    · rw [if_pos hax]
      by_cases had : a.distance_m = d <;> simp [List.filter, had]
    · rw [if_neg hax]
      have hxlt : x.distance_m < a.distance_m := lt_of_not_le hax
      by_cases had : a.distance_m = d
      · have hxd : ¬ x.distance_m = d := by rw [← had]; exact ne_of_lt hxlt
        simp [List.filter, hxd, ih, had]
      · by_cases hxd : x.distance_m = d <;> simp [List.filter, hxd, ih, had]

theorem filter_insertionSort (d : ℝ) (l : List NearbyMatch) :
    (List.insertionSort matchLE l).filter (fun m => decide (m.distance_m = d)) =
      l.filter (fun m => decide (m.distance_m = d)) := by
  induction l with
  | nil => rfl
  | cons b l ih =>
    simp only [List.insertionSort]
    rw [filter_orderedInsert]
    by_cases hbd : b.distance_m = d
    · rw [if_pos hbd, ih]
      simp [List.filter, hbd]
    · rw [if_neg hbd, ih]
      simp [List.filter, hbd]

/-- **C1** — under any fetched route set, every returned match respects
the inclusive distance threshold (a boundary-equal pair is kept: the
membership conjunct has hypothesis `distance ≤ threshold`, with
equality allowed), the returned sequence is pairwise non-decreasing in
distance, and equal-distance matches keep the discovery order of the
unsorted join list `ds` (routes outer loop, waypoints inner loop), as
expressed by the filter characterization of stable sorting. -/
theorem routes_near_match_properties
    (fetch : ℝ × ℝ × ℝ × ℝ → List GVal) (wps : List GVal) (maxDist : ℝ)
    (bb : ℝ × ℝ × ℝ × ℝ) (ds ms : List NearbyMatch)
    (hbb : queryRegionOf wps maxDist = some bb)
    (hds : buildMatches (fetch bb) wps maxDist = .ok ds)
    (hms : routes_near_waypoints fetch wps maxDist = .ok ms) :
    (∀ m ∈ ms, m.distance_m ≤ maxDist)
    ∧ ms.Pairwise matchLE
    ∧ (∀ d : ℝ, ms.filter (fun m => decide (m.distance_m = d)) =
        ds.filter (fun m => decide (m.distance_m = d)))
    ∧ (∀ (r wp : GVal) (rpt wpt : ℚ × ℚ), r ∈ fetch bb → wp ∈ wps →
        doc_point_xy r = .ok (some rpt) → doc_point_xy wp = .ok (some wpt) →
        mercator_point_distance_m rpt wpt ≤ maxDist →
        NearbyMatch.mk r wp (mercator_point_distance_m rpt wpt) ∈ ms) := by
  rw [routes_near_eq_region fetch wps maxDist bb hbb] at hms
  unfold matchAndSort at hms
  simp only [hds, Except.ok.injEq] at hms
  subst hms
  refine ⟨?_, ?_, ?_, ?_⟩
  · intro m hm
    exact buildMatches_bounded wps maxDist (fetch bb) ds hds m
      ((List.mem_insertionSort matchLE).mp hm)
  · exact List.sorted_insertionSort matchLE ds
  · intro d
    exact filter_insertionSort d ds
  · intro r wp rpt wpt hr hw h1 h2 hle
    exact (List.mem_insertionSort matchLE).mpr
      (buildMatches_mem wps maxDist (fetch bb) ds hds r wp rpt wpt hr hw h1 h2 hle)

def exWpsC1 : List GVal :=
  [.obj [("geometry", .obj [("type", gstr "Point"), ("coordinates", .arr [.num 1, .num 2])])]]

def exFetchC1 : ℝ × ℝ × ℝ × ℝ → List GVal := fun _ => []

noncomputable def exBBC1 : ℝ × ℝ × ℝ × ℝ :=
  expand_bbox ((listMin [1] : ℚ) : ℝ) ((listMin [2] : ℚ) : ℝ)
    ((listMax [1] : ℚ) : ℝ) ((listMax [2] : ℚ) : ℝ) (max 5 1000.0)

theorem routes_near_match_properties_witness :
    (∀ m ∈ ([] : List NearbyMatch), m.distance_m ≤ (5 : ℝ))
    ∧ ([] : List NearbyMatch).Pairwise matchLE
    ∧ (∀ d : ℝ, ([] : List NearbyMatch).filter (fun m => decide (m.distance_m = d)) =
        ([] : List NearbyMatch).filter (fun m => decide (m.distance_m = d)))
    ∧ (∀ (r wp : GVal) (rpt wpt : ℚ × ℚ), r ∈ exFetchC1 exBBC1 → wp ∈ exWpsC1 →
        doc_point_xy r = .ok (some rpt) → doc_point_xy wp = .ok (some wpt) →
        mercator_point_distance_m rpt wpt ≤ 5 →
        NearbyMatch.mk r wp (mercator_point_distance_m rpt wpt) ∈ ([] : List NearbyMatch)) :=
  routes_near_match_properties exFetchC1 exWpsC1 5 exBBC1 [] []
    (by
      unfold queryRegionOf
      rw [show collectXY exWpsC1 = .ok ([1], [2]) from by decide]
      rfl)
    rfl
    (by
      unfold routes_near_waypoints
      rw [if_neg (show ¬(exWpsC1.isEmpty = true) by decide)]
      rw [show collectXY exWpsC1 = .ok ([1], [2]) from by decide]
      rfl)

/-- The coordinates one waypoint contributes to the aggregate extent,
as the spec words it (§4.5 step 2): its `document_point`, or, when that
is unavailable, the two corners of its 4-element `bbox` when present,
else nothing.  This is the spec-side definition C6 compares the code's
collection loop against. -/
def specWaypointContribution (wp : GVal) : List (ℚ × ℚ) :=
  match doc_point_xy wp with
  | .ok (some p) => [p]
  | _ =>
    match wp with
    | .obj fs =>
      match bboxCorners fs with
      | some (a, b, c, d) =>
        match pyFloat a, pyFloat b, pyFloat c, pyFloat d with
        | .ok fa, .ok fb, .ok fc, .ok fd => [(fa, fb), (fc, fd)]
        | _, _, _, _ => []
      | none => []
    | _ => []

/-- All coordinates collected from the waypoint list, spec-side. -/
def specWaypointCoords (wps : List GVal) : List (ℚ × ℚ) :=
  (wps.map specWaypointContribution).flatten

theorem collectXY_eq_spec :
    ∀ (wps : List GVal) (xs ys : List ℚ),
      collectXY wps = .ok (xs, ys) →
      xs = (specWaypointCoords wps).map Prod.fst ∧
      ys = (specWaypointCoords wps).map Prod.snd := by
  intro wps
  induction wps with
  | nil =>
    intro xs ys h
    simp only [collectXY, Except.ok.injEq, Prod.mk.injEq] at h
    simp [specWaypointCoords, ← h.1, ← h.2]
  | cons wp rest ih =>
    intro xs ys h
    simp only [collectXY] at h
    cases hd : doc_point_xy wp with
    | error e => simp [hd] at h
    | ok o =>
      simp only [hd] at h
      cases o with
      | some p =>
        cases hr : collectXY rest with
        | error e => simp [hr] at h
        | ok q =>
          obtain ⟨xs', ys'⟩ := q
          simp only [hr, Except.ok.injEq, Prod.mk.injEq] at h
          obtain ⟨ihx, ihy⟩ := ih xs' ys' hr
          simp [specWaypointCoords, specWaypointContribution, hd, ← h.1, ← h.2,
            ihx, ihy]
      | none =>
        cases wp with
        | obj fs =>
          cases hb : bboxCorners fs with
          | none =>
            simp only [hb] at h
            obtain ⟨ihx, ihy⟩ := ih xs ys h
            simp [specWaypointCoords, specWaypointContribution, hd, hb, ihx, ihy]
          | some corners =>
            obtain ⟨a, b, c, d⟩ := corners
            simp only [hb] at h
            cases hfa : pyFloat a with
            | error e => simp [hfa] at h
            | ok fa =>
              cases hfc : pyFloat c with
              | error e => simp [hfa, hfc] at h
              | ok fc =>
                cases hfb : pyFloat b with
                | error e => simp [hfa, hfc, hfb] at h
                | ok fb =>
                  cases hfd : pyFloat d with
                  | error e => simp [hfa, hfc, hfb, hfd] at h
                  | ok fd =>
                    simp only [hfa, hfc, hfb, hfd] at h
                    cases hr : collectXY rest with
                    | error e => simp [hr] at h
                    | ok q =>
                      obtain ⟨xs', ys'⟩ := q
                      simp only [hr, Except.ok.injEq, Prod.mk.injEq] at h
                      obtain ⟨ihx, ihy⟩ := ih xs' ys' hr
                      simp [specWaypointCoords, specWaypointContribution, hd, hb,
                        hfa, hfb, hfc, hfd, ← h.1, ← h.2, ihx, ihy]
        | null => simp at h
        | bool b => simp at h
        | num q => simp at h
        | str t jp fp => simp at h
        | arr xs2 => simp at h

/-- **C6** — when the waypoint list yields at least one coordinate, the
query region `routes_near_waypoints` sends to the route fetch is
exactly the axis-aligned bounding box of the spec-side collected
coordinates (each waypoint's `document_point`, or, when that is
unavailable, the corners of its 4-element `bbox`), expanded
symmetrically by `max(threshold_m, 1000.0)` metres on every side. -/
theorem query_region_is_padded_spec_aabb
    (fetch : ℝ × ℝ × ℝ × ℝ → List GVal) (wps : List GVal) (maxDist : ℝ)
    (xs ys : List ℚ)
    (hc : collectXY wps = .ok (xs, ys)) (hne : xs ≠ []) :
    queryRegionOf wps maxDist =
      some (expand_bbox ((listMin ((specWaypointCoords wps).map Prod.fst) : ℚ) : ℝ)
        ((listMin ((specWaypointCoords wps).map Prod.snd) : ℚ) : ℝ)
        ((listMax ((specWaypointCoords wps).map Prod.fst) : ℚ) : ℝ)
        ((listMax ((specWaypointCoords wps).map Prod.snd) : ℚ) : ℝ)
        (max maxDist 1000.0))
    ∧ routes_near_waypoints fetch wps maxDist =
        matchAndSort
          (fetch (expand_bbox ((listMin ((specWaypointCoords wps).map Prod.fst) : ℚ) : ℝ)
            ((listMin ((specWaypointCoords wps).map Prod.snd) : ℚ) : ℝ)
            ((listMax ((specWaypointCoords wps).map Prod.fst) : ℚ) : ℝ)
            ((listMax ((specWaypointCoords wps).map Prod.snd) : ℚ) : ℝ)
            (max maxDist 1000.0)))
          wps maxDist := by
  obtain ⟨hx, hy⟩ := collectXY_eq_spec wps xs ys hc
  have hxe : xs.isEmpty = false := by
    cases xs with
    | nil => exact absurd rfl hne
    | cons a l => rfl
  have hyne : ys ≠ [] := by
    intro hnil
    apply hne
    rw [hy, List.map_eq_nil_iff] at hnil
    rw [hx, hnil]
    simp
  have hye : ys.isEmpty = false := by
    cases ys with
    | nil => exact absurd rfl hyne
    | cons a l => rfl
  have hregion : queryRegionOf wps maxDist =
      some (expand_bbox ((listMin ((specWaypointCoords wps).map Prod.fst) : ℚ) : ℝ)
        ((listMin ((specWaypointCoords wps).map Prod.snd) : ℚ) : ℝ)
        ((listMax ((specWaypointCoords wps).map Prod.fst) : ℚ) : ℝ)
        ((listMax ((specWaypointCoords wps).map Prod.snd) : ℚ) : ℝ)
        (max maxDist 1000.0)) := by
    unfold queryRegionOf
    simp only [hc, hxe, hye, Bool.or_self, Bool.false_eq_true, if_false]
    rw [hx, hy]
  exact ⟨hregion, routes_near_eq_region fetch wps maxDist _ hregion⟩

def exWpsC6 : List GVal :=
  [.obj [("geometry", .obj [("type", gstr "Point"), ("coordinates", .arr [.num 1, .num 2])])],
   .obj [("geometry", .obj [("type", gstr "Point"), ("coordinates", .arr [.num 3, .num 0])])]]

theorem query_region_is_padded_spec_aabb_witness :
    queryRegionOf exWpsC6 7 =
      some (expand_bbox ((listMin ((specWaypointCoords exWpsC6).map Prod.fst) : ℚ) : ℝ)
        ((listMin ((specWaypointCoords exWpsC6).map Prod.snd) : ℚ) : ℝ)
        ((listMax ((specWaypointCoords exWpsC6).map Prod.fst) : ℚ) : ℝ)
        ((listMax ((specWaypointCoords exWpsC6).map Prod.snd) : ℚ) : ℝ)
        (max 7 1000.0))
    ∧ routes_near_waypoints exFetchC1 exWpsC6 7 =
        matchAndSort
          (exFetchC1 (expand_bbox ((listMin ((specWaypointCoords exWpsC6).map Prod.fst) : ℚ) : ℝ)
            ((listMin ((specWaypointCoords exWpsC6).map Prod.snd) : ℚ) : ℝ)
            ((listMax ((specWaypointCoords exWpsC6).map Prod.fst) : ℚ) : ℝ)
            ((listMax ((specWaypointCoords exWpsC6).map Prod.snd) : ℚ) : ℝ)
            (max 7 1000.0)))
          exWpsC6 7 :=
  query_region_is_padded_spec_aabb exFetchC1 exWpsC6 7 [1, 3] [2, 0]
    (by decide) (by decide)
